import Mathlib

/-!
Shallow embedding of the PyRep wrapper layer (light.py, robot_component.py,
texture.py) and verification of its specification claims.

Conventions of the embedding:

* Real-valued simulator quantities (colors, probabilities, joint values) are
  modelled as rationals (ℚ): the claims are about control flow and argument
  marshalling, not floating-point rounding.
* Randomness is made explicit: every draw from numpy's random number
  generator that a function consumes is an extra argument of the embedded
  function (the activation draw, the uniform draws, the Gaussian noise, a
  stream of randint draws).
* The external simulator backend is modelled by call traces: each sim call
  that the wrapper performs appends an entry describing exactly the
  arguments passed to it.  "Delegation" claims are then statements about
  that trace.
-/

/- ------------------------------------------------------------------ -/
/- Lights: src/pyrep/objects/light.py                                  -/
/- ------------------------------------------------------------------ -/

/-- The covariance argument of the sampling helpers: either a 3-vector
(the diagonal) or a full 3x3 matrix, as accepted by `randomize_params`. -/
inductive Cov where
  | diag (v : List ℚ)
  | full (m : List (List ℚ))
deriving DecidableEq

/-- One backend call made by the light wrapper. -/
inductive LightCall where
  | setLightParameters (handle : Int) (active : Nat)
      (diffuse : List ℚ) (specular : List ℚ)
deriving DecidableEq

/-- The simulator state visible to the light wrapper: the trace of backend
calls made so far. -/
structure LightState where
  trace : List LightCall
deriving DecidableEq

/-- `sim.simSetLightParameters`: delegated to the backend; the embedding
records the call with its exact arguments. -/
def simSetLightParameters (st : LightState) (handle : Int) (active : Nat)
    (diffuse : List ℚ) (specular : List ℚ) : LightState :=
  { trace := st.trace ++ [LightCall.setLightParameters handle active diffuse specular] }

/-- Modelled from the spec: `PyRep.random_sample` (pyrep/pyrep.py) is not
among the provided sources; only its callers are.  The spec and the
docstring of `Light.randomize_params` describe it as: uniformly sample
within `ranges` when ranges are given, otherwise take `mean`; then, when
`cov` is given, perturb the result with Gaussian noise.  The uniform draw
and the Gaussian noise are explicit arguments here. -/
def random_sample (ranges : Option (List (ℚ × ℚ))) (mean : Option (List ℚ))
    (cov : Option Cov) (uniformDraw : List ℚ) (gaussNoise : List ℚ) : List ℚ :=
  let base : List ℚ :=
    match ranges with
    | some _ => uniformDraw
    | none => mean.getD []
  match cov with
  | some _ => List.zipWith (· + ·) base gaussNoise
  | none => base

/-- The value returned by `Light.randomize_params` together with the
resulting simulator state. -/
structure RandResult where
  active : Nat
  diffuse_part : List ℚ
  specular_part : List ℚ
  state : LightState
deriving DecidableEq

/-- `Light.randomize_params` (light.py, lines 102-131), after the input
validation asserts.  `initial_diffuse`/`initial_specular` are the values
captured from `simGetLightParameters` in `Light.__init__`; `activationDraw`
is the `np.random.random()` draw; the uniform/Gauss arguments are the draws
consumed by the two `random_sample` calls. -/
def Light.randomize_params (st : LightState) (handle : Int)
    (initial_diffuse initial_specular : List ℚ)
    (p_active : ℚ)
    (diffuse_part_ranges : Option (List (ℚ × ℚ)))
    (diffuse_part_mean : Option (List ℚ))
    (diffuse_part_cov : Option Cov)
    (specular_part_ranges : Option (List (ℚ × ℚ)))
    (specular_part_mean : Option (List ℚ))
    (specular_part_cov : Option Cov)
    (uniformD gaussD uniformS gaussS : List ℚ)
    (activationDraw : ℚ) : RandResult :=
  let dmean : Option (List ℚ) :=
    if diffuse_part_ranges.isNone && diffuse_part_mean.isNone then
      some initial_diffuse
    else diffuse_part_mean
  let diffuse_part :=
    random_sample diffuse_part_ranges dmean diffuse_part_cov uniformD gaussD
  let smean : Option (List ℚ) :=
    if specular_part_ranges.isNone && specular_part_mean.isNone then
      some initial_specular
    else specular_part_mean
  let specular_part :=
    random_sample specular_part_ranges smean specular_part_cov uniformS gaussS
  if activationDraw < p_active then
    { active := 0, diffuse_part := diffuse_part, specular_part := specular_part,
      state := st }
  else
    { active := 1, diffuse_part := diffuse_part, specular_part := specular_part,
      state := simSetLightParameters st handle 1 diffuse_part specular_part }

/- ------------------------------------------------------------------ -/
/- Textures: src/pyrep/textures/texture.py                             -/
/- ------------------------------------------------------------------ -/

/-- The texture backend environment: the two pure backend queries used by
`Texture.create`.  `createTexture` receives the path, the options bitmask
and the `uv_scaling`/`xy_g` arguments and returns the handle of the shape
holding the new texture; `getShapeTextureId` maps that handle to the
texture id. -/
structure TexEnv where
  createTexture : String → Nat → List ℚ → List ℚ → Int
  getShapeTextureId : Int → Int

/-- Modelled from the spec: the simulator's texture store (the backend of
`simReadTexture`/`simWriteTexture`) is outside this repository.  It is
modelled as an association of texture ids to their data; reading at
position 0 returns the stored data, writing at position 0 replaces it. -/
structure TexState where
  textures : List (Int × List Nat)
deriving DecidableEq

/-- The texture content currently stored for a given id. -/
def TexState.content (st : TexState) (id : Int) : List Nat :=
  match st.textures.find? (fun e => e.1 = id) with
  | some e => e.2
  | none => []

/-- `sim.simReadTexture` at a position (the wrapper only uses position 0,
which reads the whole stored data). -/
def simReadTexture (st : TexState) (id : Int) (_pos : Nat) : List Nat :=
  st.content id

/-- `sim.simWriteTexture` at a position (the wrapper only uses position 0,
which replaces the whole stored data). -/
def simWriteTexture (st : TexState) (id : Int) (_pos : Nat)
    (data : List Nat) : TexState :=
  { textures := (id, data) :: st.textures }

/-- The `Texture` object: it stores the texture id (and the handle that
`Texture.create` attaches as `_handle`). -/
structure Texture where
  texture_id : Int
  handle : Int
deriving DecidableEq

/-- `Texture.get_texture_id` (texture.py, lines 68-73). -/
def Texture.get_texture_id (t : Texture) : Int :=
  t.texture_id

/-- The options bitmask computed at the start of `Texture.create`
(texture.py, lines 27-35). -/
def texture_options (interpolate decal_mode repeat_along_u repeat_along_v : Bool) : Nat :=
  let o0 : Nat := 0
  let o1 := if interpolate then o0 ||| 1 else o0
  let o2 := if decal_mode then o1 ||| 2 else o1
  let o3 := if repeat_along_u then o2 ||| 4 else o2
  if repeat_along_v then o3 ||| 8 else o3

/-- `Texture.create` (texture.py, lines 11-52): build the options bitmask,
create the texture via the backend, fetch its texture id, read the data at
position 0 and write it straight back, and return the `Texture` object
together with the resulting texture store. -/
def Texture.create (env : TexEnv) (st : TexState) (texture_path : String)
    (interpolate decal_mode repeat_along_u repeat_along_v : Bool)
    (uv_scaling xy_g : List ℚ) : Texture × TexState :=
  let options := texture_options interpolate decal_mode repeat_along_u repeat_along_v
  let h_texture := env.createTexture texture_path options uv_scaling xy_g
  let texture_id := env.getShapeTextureId h_texture
  let data := simReadTexture st texture_id 0
  let st1 := simWriteTexture st texture_id 0 data
  ({ texture_id := texture_id, handle := h_texture }, st1)

/- ------------------------------------------------------------------ -/
/- Robot components: src/pyrep/robots/robot_component.py               -/
/- ------------------------------------------------------------------ -/

/-- A visual element of the component, as returned by `get_visuals`: the
wrapper only uses its name and its handle. -/
structure Element where
  name : String
  handle : Int
deriving DecidableEq

/-- One delegated sub-randomization call made by `randomize_property` for
one visual element: the shape handle, the decremented group depth and the
seed passed to `Shape.randomize_color` / `Shape.randomize_texture`. -/
inductive RCCall where
  | randomizeColor (handle : Int) (group_depth : Option Int) (seed : Option Int)
  | randomizeTexture (handle : Int) (group_depth : Option Int) (seed : Option Int)
deriving DecidableEq

/-- The environment of `randomize_property`.  `colorOracle`/`textureOracle`
model the seed value returned by the delegated `Shape.randomize_color` /
`Shape.randomize_texture` calls (those live in shape.py, which is not among
the provided sources); `fresh` is the stream of `np.random.randint(2**32-1)`
draws, indexed by how many such draws were made so far. -/
structure RPEnv where
  colorOracle : Int → Option Int → Option Int
  textureOracle : Int → Option Int → Option Int
  fresh : Nat → Int

/-- The index of the first group whose name list contains `name`
(the `enumerate` loop of `find_group_seed`). -/
def first_group : List (List String) → String → Option Nat
  | [], _ => none
  | g :: rest, name =>
      if name ∈ g then some 0 else (first_group rest name).map (· + 1)

/-- `find_group_seed` (robot_component.py, lines 308-313): return the seed
of the first group containing `name`.  `none` stands for the exception path
caught by the caller: `ValueError` when no group contains the name,
`TypeError` when `groups` is `None`, `IndexError` when `group_seeds` is too
short. -/
def find_group_seed (groups : Option (List (List String)))
    (group_seeds : List Int) (name : String) : Option Int :=
  match groups with
  | none => none
  | some gs => (first_group gs name).bind (fun i => group_seeds.get? i)

/-- The grouping/seeding step of `randomize_property` for one element
(robot_component.py, lines 333-342): the seed to use for this element and
the updated count of `randint` draws made so far. -/
def rp_step_seed (group_depth : Option Int)
    (groups : Option (List (List String))) (group_seeds : List Int)
    (env : RPEnv) (e : Element) (seed : Option Int) (k : Nat) :
    Option Int × Nat :=
  match group_depth with
  | some d =>
      if 0 < d then
        match find_group_seed groups group_seeds e.name with
        | some g => (some g, k)
        | none =>
            match seed with
            | none => (some (env.fresh k), k + 1)
            | some s => (some (s + 1), k)
      else (seed, k)
  | none => (seed, k)

/-- The per-element loop of `randomize_property` (robot_component.py,
lines 330-363): thread the mutable `seed` and the count `k` of `randint`
draws made so far through the elements; an unknown `prop` raises
`ValueError`, modelled as `Except.error ()`. -/
def rp_loop (prop : String) (group_depth : Option Int)
    (groups : Option (List (List String))) (group_seeds : List Int)
    (env : RPEnv) :
    List Element → Option Int → Nat → Except Unit (List RCCall)
  | [], _, _ => Except.ok []
  | e :: rest, seed, k =>
      let stepSeed : Option Int × Nat :=
        rp_step_seed group_depth groups group_seeds env e seed k
      let gd1 : Option Int := group_depth.map (fun d => d - 1)
      if prop = "color" then
        match rp_loop prop group_depth groups group_seeds env rest
            (env.colorOracle e.handle stepSeed.1) stepSeed.2 with
        | Except.ok tr =>
            Except.ok (RCCall.randomizeColor e.handle gd1 stepSeed.1 :: tr)
        | Except.error u => Except.error u
      else if prop = "texture" then
        match rp_loop prop group_depth groups group_seeds env rest
            (env.textureOracle e.handle stepSeed.1) stepSeed.2 with
        | Except.ok tr =>
            Except.ok (RCCall.randomizeTexture e.handle gd1 stepSeed.1 :: tr)
        | Except.error u => Except.error u
      else Except.error ()

/-- `RobotComponent.randomize_property` (robot_component.py, lines
259-363): the grouping/seeding setup (lines 315-328) followed by the
per-element loop.  `elements` is the list returned by
`get_visuals(search_strings)`. -/
def RobotComponent.randomize_property (prop : String)
    (group_depth : Option Int) (seed0 : Option Int)
    (groups : Option (List (List String))) (env : RPEnv)
    (elements : List Element) : Except Unit (List RCCall) :=
  let seedA : Option Int × Nat :=
    match group_depth, seed0 with
    | some d, none => if d ≤ 0 then (some (env.fresh 0), 1) else (none, 0)
    | _, _ => (seed0, 0)
  let setup : List Int × Option Int × Nat :=
    match groups, seedA.1 with
    | some gs, some s =>
        ((List.range gs.length).map (fun i : Nat => s + (i : Int)),
         some (s + (gs.length : Int)), seedA.2)
    | some gs, none =>
        ((List.range gs.length).map (fun i : Nat => env.fresh seedA.2 + (i : Int)),
         none, seedA.2 + 1)
    | none, _ => ([], seedA.1, seedA.2)
  rp_loop prop group_depth groups setup.1 env elements setup.2.1 setup.2.2

/-- The backend environment used by `RobotComponent.copy`. -/
structure CopyEnv where
  copyPasteObjects : List Int → Int → List Int
  getObjectName : Int → String

/-- The backend call made by `RobotComponent.copy`. -/
inductive CopyCall where
  | copyPasteObjects (handles : List Int) (n : Int)
deriving DecidableEq

/-- The characters of the name after its last hash sign: the slice
`name[name.rfind(c) + 1:]`, which is the whole name when the hash sign does
not occur in it. -/
def tail_after_hash (name : String) : List Char :=
  (name.data.reverse.takeWhile (fun c => c ≠ Char.ofNat 35)).reverse

/-- Python `int()` on a list of characters, for the inputs `copy` can feed
it: an optional minus sign followed by one or more decimal digits; `none`
models the `ValueError` on anything else. -/
def py_int (cs : List Char) : Option Int :=
  let digits : List Char → Option Nat := fun ds =>
    if ds = [] then none
    else if ds.all Char.isDigit then
      some (ds.foldl (fun acc c => acc * 10 + (c.toNat - 48)) 0)
    else none
  match cs with
  | [] => none
  | c :: rest =>
      if c = Char.ofNat 45 then (digits rest).map (fun n => -(n : Int))
      else (digits cs).map (fun n => (n : Int))

/-- The number computation of `RobotComponent.copy` (robot_component.py,
lines 38-43): slice the name after the last occurrence of the hash sign
(the whole name when it does not occur), then `int(slice) + 1` when the
slice is non-empty (`none` models the `ValueError` raised by `int` on a
non-numeric slice) and `0` when the slice is empty. -/
def copy_num (name : String) : Option Int :=
  let num := tail_after_hash name
  if 0 < num.length then (py_int num).map (· + 1) else some 0

/-- `RobotComponent.copy` (robot_component.py, lines 27-44): delegate the
copy to `simCopyPasteObjects([handle], 1)`, take the first returned handle,
fetch its name and compute the number the new component is constructed
with.  The result is the backend call trace and the number (`none` for the
`ValueError` path). -/
def RobotComponent.copy (env : CopyEnv) (handle : Int) :
    List CopyCall × Option Int :=
  let newHandle := (env.copyPasteObjects [handle] 1).headD 0
  let name := env.getObjectName newHandle
  ([CopyCall.copyPasteObjects [handle] 1], copy_num name)

/-- Modelled from the spec: the per-joint simulator state behind the joint
setters of joint.py (not among the provided sources).  Each joint setter of
the component delegates to the corresponding per-joint setter, which sets
the corresponding value in the simulator. -/
structure JointState where
  position : ℚ
  targetPosition : ℚ
  targetVelocity : ℚ
  force : ℚ
  cyclic : Bool
  interval : List ℚ
deriving DecidableEq

/-- The simulator state visible to a `RobotComponent`: its joints, the
component's model property (`simGetModelProperty`/`simSetModelProperty`),
its is-model flag (modelled from the spec: `Object.is_model`/`set_model`
live in object.py, which is not among the provided sources, and read/write
a per-object is-model flag), and the number of `simExtStep` calls made. -/
structure RCState where
  joints : List JointState
  modelProperty : Nat
  isModelFlag : Bool
  stepCount : Nat
deriving DecidableEq

/-- The backend constant `sim.sim_modelproperty_not_dynamic`: its exact
value comes from the simulator's headers and is irrelevant to the claims;
only that it is OR-ed in and the prior value restored matters. -/
def sim_modelproperty_not_dynamic : Nat := 32

/-- `Object.is_model`, modelled from the spec (object.py not provided). -/
def RCState.is_model (rc : RCState) : Bool :=
  rc.isModelFlag

/-- `Object.set_model`, modelled from the spec (object.py not provided). -/
def RCState.set_model (rc : RCState) (v : Bool) : RCState :=
  { rc with isModelFlag := v }

/-- `RobotComponent._assert_len` (robot_component.py, lines 429-433):
`true` when the `RuntimeError` is raised. -/
def RobotComponent.assert_len_fails (rc : RCState) (n : Nat) : Bool :=
  rc.joints.length ≠ n

/-- `RobotComponent.set_joint_positions` (robot_component.py, lines
76-111).  Returns the resulting state and whether a `RuntimeError` was
raised (in which case nothing was modified, since `_assert_len` runs before
any simulator call). -/
def RobotComponent.set_joint_positions (rc : RCState) (positions : List ℚ)
    (allow_force_mode : Bool) : RCState × Bool :=
  if RobotComponent.assert_len_fails rc positions.length then (rc, true)
  else if !allow_force_mode then
    let js := List.zipWith (fun j p => { j with position := p })
      rc.joints positions
    ({ rc with joints := js }, false)
  else
    let im := rc.is_model
    let st1 := if !im then rc.set_model true else rc
    let prior := st1.modelProperty
    let st2 := { st1 with
      modelProperty := prior ||| sim_modelproperty_not_dynamic }
    let js := List.zipWith
      (fun j p => { j with position := p, targetPosition := p })
      st2.joints positions
    let st3 := { st2 with joints := js }
    let st4 := { st3 with stepCount := st3.stepCount + 1 }
    let st5 := { st4 with modelProperty := prior }
    let st6 := st5.set_model im
    (st6, false)

/-- `RobotComponent.set_joint_target_positions` (lines 121-131). -/
def RobotComponent.set_joint_target_positions (rc : RCState)
    (positions : List ℚ) : RCState × Bool :=
  if RobotComponent.assert_len_fails rc positions.length then (rc, true)
  else
    let js := List.zipWith (fun j p => { j with targetPosition := p })
      rc.joints positions
    ({ rc with joints := js }, false)

/-- `RobotComponent.set_joint_target_velocities` (lines 141-149). -/
def RobotComponent.set_joint_target_velocities (rc : RCState)
    (velocities : List ℚ) : RCState × Bool :=
  if RobotComponent.assert_len_fails rc velocities.length then (rc, true)
  else
    let js := List.zipWith (fun j v => { j with targetVelocity := v })
      rc.joints velocities
    ({ rc with joints := js }, false)

/-- `RobotComponent.set_joint_forces` (lines 161-170). -/
def RobotComponent.set_joint_forces (rc : RCState)
    (forces : List ℚ) : RCState × Bool :=
  if RobotComponent.assert_len_fails rc forces.length then (rc, true)
  else
    let js := List.zipWith (fun j f => { j with force := f })
      rc.joints forces
    ({ rc with joints := js }, false)

/-- `RobotComponent.set_joint_intervals` (lines 196-209): two length
asserts, then the zipped per-joint updates. -/
def RobotComponent.set_joint_intervals (rc : RCState)
    (cyclic : List Bool) (intervals : List (List ℚ)) : RCState × Bool :=
  if RobotComponent.assert_len_fails rc cyclic.length then (rc, true)
  else if RobotComponent.assert_len_fails rc intervals.length then (rc, true)
  else
    let js := List.zipWith
      (fun j ci => { j with cyclic := ci.1, interval := ci.2 })
      rc.joints (cyclic.zip intervals)
    ({ rc with joints := js }, false)

/- ------------------------------------------------------------------ -/
/- Theorems                                                            -/
/- ------------------------------------------------------------------ -/

lemma trace_append_ne (l : List LightCall) (c : LightCall) : l ++ [c] ≠ l := by
  intro h
  have hlen := congrArg List.length h
  simp at hlen

/-- C2: `simSetLightParameters` is invoked exactly when the activation draw
is ≥ `p_active`, and then the returned active flag is 1 and the call passes
active = 1 with the sampled parts; when the draw is below `p_active` the
call returns active = 0 and the sampled parts and leaves the simulator
state unchanged; and raising `p_active` can only turn an update into a
non-update, never the reverse. -/
theorem randomize_params_activation_behaviour
    (st : LightState) (handle : Int) (idf isp : List ℚ) (p : ℚ)
    (dr : Option (List (ℚ × ℚ))) (dm : Option (List ℚ)) (dc : Option Cov)
    (sr : Option (List (ℚ × ℚ))) (sm : Option (List ℚ)) (sc : Option Cov)
    (uD gD uS gS : List ℚ) (draw : ℚ) :
    let r := Light.randomize_params st handle idf isp p dr dm dc
      sr sm sc uD gD uS gS draw
    (r.state.trace ≠ st.trace ↔ p ≤ draw) ∧
    (p ≤ draw → r.active = 1 ∧
      r.state.trace = st.trace ++
        [LightCall.setLightParameters handle 1 r.diffuse_part r.specular_part]) ∧
    (draw < p → r.active = 0 ∧ r.state = st ∧
      r.diffuse_part = random_sample dr
        (if dr.isNone && dm.isNone then some idf else dm) dc uD gD ∧
      r.specular_part = random_sample sr
        (if sr.isNone && sm.isNone then some isp else sm) sc uS gS) ∧
    (∀ p2 : ℚ, p ≤ p2 →
      (Light.randomize_params st handle idf isp p2 dr dm dc
        sr sm sc uD gD uS gS draw).state.trace ≠ st.trace →
      r.state.trace ≠ st.trace) := by
  by_cases hlt : draw < p
  · have hnle : ¬ p ≤ draw := not_le.mpr hlt
    refine ⟨?_, ?_, ?_, ?_⟩
    · simp [Light.randomize_params, hlt, hnle]
    · intro hle; exact absurd hle hnle
    · intro _
      simp [Light.randomize_params, hlt]
    · intro p2 hp2 hne
      have hlt2 : draw < p2 := lt_of_lt_of_le hlt hp2
      simp [Light.randomize_params, hlt2] at hne
  · have hle : p ≤ draw := not_lt.mp hlt
    refine ⟨?_, ?_, ?_, ?_⟩
    · simp only [Light.randomize_params, hlt, if_false]
      simp [simSetLightParameters, hle, trace_append_ne]
    · intro _
      simp [Light.randomize_params, hlt, simSetLightParameters]
    · intro h; exact absurd h hlt
    · intro p2 _ _
      simp only [Light.randomize_params, hlt, if_false]
      simp [simSetLightParameters, trace_append_ne]

/-- C1 counterexample: at `p_active = 1` and activation draw `0`,
`Light.randomize_params` makes no backend call at all, so the resulting
activation state and the sampled parts are not passed to
`simSetLightParameters`: the claim that every call delegates the update
fails. -/
theorem randomize_params_not_always_delegated :
    let r := Light.randomize_params ⟨[]⟩ 7 [1, 1, 1] [1, 1, 1] 1 none none
      (some (Cov.diag [0, 0, 0])) none none (some (Cov.diag [0, 0, 0]))
      [] [0, 0, 0] [] [0, 0, 0] 0
    r.state.trace = [] ∧
    LightCall.setLightParameters 7 r.active r.diffuse_part r.specular_part ∉
      r.state.trace := by
  constructor
  · rfl
  · intro h
    rw [show (Light.randomize_params ⟨[]⟩ 7 [1, 1, 1] [1, 1, 1] 1 none none
      (some (Cov.diag [0, 0, 0])) none none (some (Cov.diag [0, 0, 0]))
      [] [0, 0, 0] [] [0, 0, 0] 0).state.trace = [] from rfl] at h
    exact List.not_mem_nil _ h

/-- C1 (amended): whenever the activation draw is at least `p_active` (the
branch that updates the light), the update is delegated directly to the
backend: active = 1 together with the sampled diffuse and specular parts is
passed to `simSetLightParameters` for this light's handle; when the draw is
below `p_active` no backend call is made. -/
theorem randomize_params_delegates_when_active
    (st : LightState) (handle : Int) (idf isp : List ℚ) (p : ℚ)
    (dr : Option (List (ℚ × ℚ))) (dm : Option (List ℚ)) (dc : Option Cov)
    (sr : Option (List (ℚ × ℚ))) (sm : Option (List ℚ)) (sc : Option Cov)
    (uD gD uS gS : List ℚ) (draw : ℚ) (h : p ≤ draw) :
    let r := Light.randomize_params st handle idf isp p dr dm dc
      sr sm sc uD gD uS gS draw
    r.active = 1 ∧
    r.state.trace = st.trace ++
      [LightCall.setLightParameters handle 1 r.diffuse_part r.specular_part] := by
  have hlt : ¬ draw < p := not_lt.mpr h
  simp [Light.randomize_params, hlt, simSetLightParameters]

theorem randomize_params_delegates_when_active_witness :
    (1 : ℚ) ≤ 2 ∧
    ((Light.randomize_params ⟨[]⟩ 7 [1, 1, 1] [1, 1, 1] 1 none none
        (some (Cov.diag [0, 0, 0])) none none (some (Cov.diag [0, 0, 0]))
        [] [0, 0, 0] [] [0, 0, 0] 2).active = 1 ∧
      (Light.randomize_params ⟨[]⟩ 7 [1, 1, 1] [1, 1, 1] 1 none none
        (some (Cov.diag [0, 0, 0])) none none (some (Cov.diag [0, 0, 0]))
        [] [0, 0, 0] [] [0, 0, 0] 2).state.trace = [] ++
        [LightCall.setLightParameters 7 1
          (Light.randomize_params ⟨[]⟩ 7 [1, 1, 1] [1, 1, 1] 1 none none
            (some (Cov.diag [0, 0, 0])) none none (some (Cov.diag [0, 0, 0]))
            [] [0, 0, 0] [] [0, 0, 0] 2).diffuse_part
          (Light.randomize_params ⟨[]⟩ 7 [1, 1, 1] [1, 1, 1] 1 none none
            (some (Cov.diag [0, 0, 0])) none none (some (Cov.diag [0, 0, 0]))
            [] [0, 0, 0] [] [0, 0, 0] 2).specular_part]) :=
  ⟨by norm_num,
   randomize_params_delegates_when_active ⟨[]⟩ 7 [1, 1, 1] [1, 1, 1] 1 none none
     (some (Cov.diag [0, 0, 0])) none none (some (Cov.diag [0, 0, 0]))
     [] [0, 0, 0] [] [0, 0, 0] 2 (by norm_num)⟩

/-- C7: when both the ranges and the mean argument of the diffuse
(respectively specular) part are `None`, the part is sampled with Gaussian
mean equal to the initial diffuse (respectively specular) part captured
from the simulator at construction: with a covariance given, the sampled
part is exactly the initial part plus the Gaussian noise. -/
theorem randomize_params_default_mean_is_initial
    (st : LightState) (handle : Int) (idf isp : List ℚ) (p : ℚ)
    (dc : Option Cov) (sc : Option Cov)
    (uD gD uS gS : List ℚ) (draw : ℚ) :
    let r := Light.randomize_params st handle idf isp p none none dc
      none none sc uD gD uS gS draw
    r.diffuse_part = random_sample none (some idf) dc uD gD ∧
    r.specular_part = random_sample none (some isp) sc uS gS ∧
    (∀ c : Cov, dc = some c →
      r.diffuse_part = List.zipWith (· + ·) idf gD) ∧
    (∀ c : Cov, sc = some c →
      r.specular_part = List.zipWith (· + ·) isp gS) := by
  refine ⟨?_, ?_, ?_, ?_⟩
  · by_cases hlt : draw < p <;> simp [Light.randomize_params, hlt]
  · by_cases hlt : draw < p <;> simp [Light.randomize_params, hlt]
  · intro c hc
    subst hc
    by_cases hlt : draw < p <;> simp [Light.randomize_params, hlt, random_sample]
  · intro c hc
    subst hc
    by_cases hlt : draw < p <;> simp [Light.randomize_params, hlt, random_sample]

/-- C5: `Texture.create` delegates creation to the backend with an options
bitmask equal to 1·[interpolate] + 2·[decal_mode] + 4·[repeat_along_u] +
8·[repeat_along_v], and the returned texture's `get_texture_id` is
`simGetShapeTextureId` applied to the handle returned by
`simCreateTexture`. -/
theorem texture_create_options_and_id
    (env : TexEnv) (st : TexState) (path : String)
    (interpolate decal_mode repeat_along_u repeat_along_v : Bool)
    (uv_scaling xy_g : List ℚ) :
    texture_options interpolate decal_mode repeat_along_u repeat_along_v =
      (if interpolate then 1 else 0) + 2 * (if decal_mode then 1 else 0) +
        4 * (if repeat_along_u then 1 else 0) +
        8 * (if repeat_along_v then 1 else 0) ∧
    (Texture.create env st path interpolate decal_mode repeat_along_u
        repeat_along_v uv_scaling xy_g).1.get_texture_id =
      env.getShapeTextureId (env.createTexture path
        (texture_options interpolate decal_mode repeat_along_u repeat_along_v)
        uv_scaling xy_g) := by
  constructor
  · cases interpolate <;> cases decal_mode <;>
      cases repeat_along_u <;> cases repeat_along_v <;> rfl
  · rfl

lemma content_write_read (st : TexState) (tid id : Int) :
    (simWriteTexture st tid 0 (simReadTexture st tid 0)).content id =
      st.content id := by
  by_cases h : tid = id
  · subst h
    simp [simWriteTexture, simReadTexture, TexState.content, List.find?]
  · simp [simWriteTexture, simReadTexture, TexState.content, List.find?, h]

/-- C6: the read-then-write step of `Texture.create` writes back at
position 0 exactly the data read at position 0, and this round trip leaves
the content stored for every texture id unchanged. -/
theorem texture_create_readwrite_roundtrip
    (env : TexEnv) (st : TexState) (path : String)
    (interpolate decal_mode repeat_along_u repeat_along_v : Bool)
    (uv_scaling xy_g : List ℚ) (id : Int) :
    (Texture.create env st path interpolate decal_mode repeat_along_u
        repeat_along_v uv_scaling xy_g).2 =
      simWriteTexture st
        (Texture.create env st path interpolate decal_mode repeat_along_u
          repeat_along_v uv_scaling xy_g).1.texture_id 0
        (simReadTexture st
          (Texture.create env st path interpolate decal_mode repeat_along_u
            repeat_along_v uv_scaling xy_g).1.texture_id 0) ∧
    ((Texture.create env st path interpolate decal_mode repeat_along_u
        repeat_along_v uv_scaling xy_g).2).content id = st.content id := by
  constructor
  · rfl
  · exact content_write_read st _ id

lemma first_group_lt (gs : List (List String)) (name : String) (i : Nat)
    (h : first_group gs name = some i) : i < gs.length := by
  induction gs generalizing i with
  | nil => simp [first_group] at h
  | cons g rest ih =>
      simp only [first_group] at h
      by_cases hm : name ∈ g
      · rw [if_pos hm] at h
        cases h
        simp
      · rw [if_neg hm] at h
        obtain ⟨j, hj, rfl⟩ := Option.map_eq_some'.mp h
        have := ih j hj
        simp
        omega

lemma group_seeds_get (s : Int) (n i : Nat) (h : i < n) :
    ((List.range n).map (fun j : Nat => s + (j : Int))).get? i =
      some (s + (i : Int)) := by
  rw [List.get?_eq_getElem?, List.getElem?_map, List.getElem?_range h]
  rfl

lemma rp_loop_color_spec (d : Int) (gs : List (List String)) (seeds : List Int)
    (env : RPEnv) (hd : 0 < d) (elems : List Element) :
    ∀ (seed : Option Int) (k : Nat),
      ∃ tr, rp_loop "color" (some d) (some gs) seeds env elems seed k =
          Except.ok tr ∧
        tr.length = elems.length ∧
        ∀ idx e w, elems.get? idx = some e →
          find_group_seed (some gs) seeds e.name = some w →
          tr.get? idx =
            some (RCCall.randomizeColor e.handle (some (d - 1)) (some w)) := by
  induction elems with
  | nil =>
      intro seed k
      refine ⟨[], rfl, rfl, ?_⟩
      intro idx e w hget
      simp at hget
  | cons e rest ih =>
      intro seed k
      cases hfg : find_group_seed (some gs) seeds e.name with
      | some w =>
          obtain ⟨tr, htr, hlen, hspec⟩ := ih (env.colorOracle e.handle (some w)) k
          refine ⟨RCCall.randomizeColor e.handle (some (d - 1)) (some w) :: tr,
            ?_, ?_, ?_⟩
          · simp only [rp_loop, rp_step_seed, hfg, if_pos hd, htr]
            simp
          · simp [hlen]
          · intro idx e2 w2 hget hfind
            cases idx with
            | zero =>
                simp only [List.get?] at hget
                cases hget
                rw [hfg] at hfind
                cases hfind
                rfl
            | succ n =>
                simp only [List.get?] at hget ⊢
                exact hspec n e2 w2 hget hfind
      | none =>
          cases seed with
          | none =>
              obtain ⟨tr, htr, hlen, hspec⟩ :=
                ih (env.colorOracle e.handle (some (env.fresh k))) (k + 1)
              refine ⟨RCCall.randomizeColor e.handle (some (d - 1))
                (some (env.fresh k)) :: tr, ?_, ?_, ?_⟩
              · simp only [rp_loop, rp_step_seed, hfg, if_pos hd, htr]
                simp
              · simp [hlen]
              · intro idx e2 w2 hget hfind
                cases idx with
                | zero =>
                    simp only [List.get?] at hget
                    cases hget
                    rw [hfg] at hfind
                    cases hfind
                | succ n =>
                    simp only [List.get?] at hget ⊢
                    exact hspec n e2 w2 hget hfind
          | some s =>
              obtain ⟨tr, htr, hlen, hspec⟩ :=
                ih (env.colorOracle e.handle (some (s + 1))) k
              refine ⟨RCCall.randomizeColor e.handle (some (d - 1))
                (some (s + 1)) :: tr, ?_, ?_, ?_⟩
              · simp only [rp_loop, rp_step_seed, hfg, if_pos hd, htr]
                simp
              · simp [hlen]
              · intro idx e2 w2 hget hfind
                cases idx with
                | zero =>
                    simp only [List.get?] at hget
                    cases hget
                    rw [hfg] at hfind
                    cases hfind
                | succ n =>
                    simp only [List.get?] at hget ⊢
                    exact hspec n e2 w2 hget hfind

/-- The seed argument a delegated sub-randomization call received. -/
def RCCall.seedArg : RCCall → Option Int
  | RCCall.randomizeColor _ _ s => s
  | RCCall.randomizeTexture _ _ s => s

/-- A concrete randomization environment: the delegated sub-randomizers
return the seed they were given and every randint draw is 0. -/
def rpEnvId : RPEnv :=
  { colorOracle := fun _ s => s, textureOracle := fun _ s => s,
    fresh := fun _ => 0 }

/-- C3 (amended): with a caller-supplied seed s and group_depth > 0, every
visual element whose FIRST containing group is the i-th one is randomized
with seed s + i; elements with the same first containing group share the
seed and elements with distinct first containing groups receive distinct
seeds.  (As stated, with "listed in the i-th group" instead of "first
containing group", the claim fails when a name is listed in two groups:
see the counterexample.) -/
theorem randomize_property_group_seeding
    (gs : List (List String)) (s : Int) (d : Int) (env : RPEnv)
    (elements : List Element) (hd : 0 < d) :
    ∃ tr, RobotComponent.randomize_property "color" (some d) (some s)
        (some gs) env elements = Except.ok tr ∧
      tr.length = elements.length ∧
      (∀ idx e i, elements.get? idx = some e →
        first_group gs e.name = some i →
        tr.get? idx = some (RCCall.randomizeColor e.handle (some (d - 1))
          (some (s + (i : Int))))) ∧
      (∀ idx1 idx2 e1 e2 i1 i2 c1 c2,
        elements.get? idx1 = some e1 → elements.get? idx2 = some e2 →
        first_group gs e1.name = some i1 → first_group gs e2.name = some i2 →
        tr.get? idx1 = some c1 → tr.get? idx2 = some c2 →
        (i1 = i2 → c1.seedArg = c2.seedArg) ∧
        (i1 ≠ i2 → c1.seedArg ≠ c2.seedArg)) := by
  obtain ⟨tr, htr, hlen, hspec⟩ :=
    rp_loop_color_spec d gs
      ((List.range gs.length).map (fun i : Nat => s + (i : Int))) env hd
      elements (some (s + (gs.length : Int))) 0
  have hmain : ∀ idx e i, elements.get? idx = some e →
      first_group gs e.name = some i →
      tr.get? idx = some (RCCall.randomizeColor e.handle (some (d - 1))
        (some (s + (i : Int)))) := by
    intro idx e i hget hfirst
    refine hspec idx e (s + (i : Int)) hget ?_
    have hi : i < gs.length := first_group_lt gs e.name i hfirst
    simp only [find_group_seed, hfirst, Option.bind]
    exact group_seeds_get s gs.length i hi
  refine ⟨tr, htr, hlen, hmain, ?_⟩
  intro idx1 idx2 e1 e2 i1 i2 c1 c2 hg1 hg2 hf1 hf2 hc1 hc2
  have h1 := hmain idx1 e1 i1 hg1 hf1
  have h2 := hmain idx2 e2 i2 hg2 hf2
  rw [hc1] at h1
  rw [hc2] at h2
  cases h1
  cases h2
  constructor
  · intro heq
    subst heq
    rfl
  · intro hne hcontra
    simp only [RCCall.seedArg, Option.some.injEq] at hcontra
    have : (i1 : Int) = (i2 : Int) := by linarith
    exact hne (Int.ofNat.inj this)

theorem randomize_property_group_seeding_witness :
    (0 : Int) < 1 ∧
    ∃ tr, RobotComponent.randomize_property "color" (some 1) (some 0)
        (some [["a"]]) rpEnvId [{ name := "a", handle := 5 }] = Except.ok tr ∧
      tr.length = [({ name := "a", handle := 5 } : Element)].length ∧
      (∀ idx e i, [({ name := "a", handle := 5 } : Element)].get? idx = some e →
        first_group [["a"]] e.name = some i →
        tr.get? idx = some (RCCall.randomizeColor e.handle (some (1 - 1))
          (some (0 + (i : Int))))) ∧
      (∀ idx1 idx2 e1 e2 i1 i2 c1 c2,
        [({ name := "a", handle := 5 } : Element)].get? idx1 = some e1 →
        [({ name := "a", handle := 5 } : Element)].get? idx2 = some e2 →
        first_group [["a"]] e1.name = some i1 →
        first_group [["a"]] e2.name = some i2 →
        tr.get? idx1 = some c1 → tr.get? idx2 = some c2 →
        (i1 = i2 → c1.seedArg = c2.seedArg) ∧
        (i1 ≠ i2 → c1.seedArg ≠ c2.seedArg)) :=
  ⟨by decide,
   randomize_property_group_seeding [["a"]] 0 1 rpEnvId
     [{ name := "a", handle := 5 }] (by decide)⟩

/-- C3 counterexample: the name "a" is listed in the group of index 1
(counting from 0), yet with caller seed 0 the element is randomized with
seed 0 (the seed of the FIRST group containing it), not with seed 0 + 1 as
the claim states for the i-th group. -/
theorem randomize_property_first_group_wins :
    [["a"], ["a"]].get? 1 = some ["a"] ∧ "a" ∈ (["a"] : List String) ∧
    RobotComponent.randomize_property "color" (some 1) (some 0)
      (some [["a"], ["a"]]) rpEnvId [{ name := "a", handle := 5 }] =
      Except.ok [RCCall.randomizeColor 5 (some 0) (some 0)] ∧
    (some (0 : Int)) ≠ some ((0 : Int) + 1) := by
  refine ⟨rfl, by decide, rfl, by decide⟩

lemma rp_loop_texture_ok (gd : Option Int)
    (groups : Option (List (List String))) (seeds : List Int) (env : RPEnv)
    (elems : List Element) :
    ∀ seed k, ∃ tr, rp_loop "texture" gd groups seeds env elems seed k =
      Except.ok tr ∧ tr.length = elems.length := by
  induction elems with
  | nil => intro seed k; exact ⟨[], rfl, rfl⟩
  | cons e rest ih =>
      intro seed k
      obtain ⟨tr, htr, hlen⟩ := ih
        (env.textureOracle e.handle (rp_step_seed gd groups seeds env e seed k).1)
        (rp_step_seed gd groups seeds env e seed k).2
      refine ⟨RCCall.randomizeTexture e.handle (gd.map (fun d => d - 1))
        (rp_step_seed gd groups seeds env e seed k).1 :: tr, ?_, ?_⟩
      · simp only [rp_loop, htr]
        simp
      · simp [hlen]

lemma rp_loop_color_ok (gd : Option Int)
    (groups : Option (List (List String))) (seeds : List Int) (env : RPEnv)
    (elems : List Element) :
    ∀ seed k, ∃ tr, rp_loop "color" gd groups seeds env elems seed k =
      Except.ok tr ∧ tr.length = elems.length := by
  induction elems with
  | nil => intro seed k; exact ⟨[], rfl, rfl⟩
  | cons e rest ih =>
      intro seed k
      obtain ⟨tr, htr, hlen⟩ := ih
        (env.colorOracle e.handle (rp_step_seed gd groups seeds env e seed k).1)
        (rp_step_seed gd groups seeds env e seed k).2
      refine ⟨RCCall.randomizeColor e.handle (gd.map (fun d => d - 1))
        (rp_step_seed gd groups seeds env e seed k).1 :: tr, ?_, ?_⟩
      · simp only [rp_loop, htr]
        simp
      · simp [hlen]

lemma rp_loop_bad_prop (prop : String) (hc : prop ≠ "color")
    (ht : prop ≠ "texture") (gd : Option Int)
    (groups : Option (List (List String))) (seeds : List Int) (env : RPEnv)
    (e : Element) (rest : List Element) (seed : Option Int) (k : Nat) :
    rp_loop prop gd groups seeds env (e :: rest) seed k = Except.error () := by
  simp only [rp_loop]
  rw [if_neg hc, if_neg ht]

lemma rp_loop_error_iff (prop : String) (gd : Option Int)
    (groups : Option (List (List String))) (seeds : List Int) (env : RPEnv)
    (elems : List Element) (seed : Option Int) (k : Nat) :
    (rp_loop prop gd groups seeds env elems seed k = Except.error () ↔
      (prop ≠ "color" ∧ prop ≠ "texture" ∧ elems ≠ [])) ∧
    (∀ tr, rp_loop prop gd groups seeds env elems seed k = Except.ok tr →
      tr.length = elems.length) := by
  cases elems with
  | nil =>
      constructor
      · simp [rp_loop]
      · intro tr h
        cases h
        rfl
  | cons e rest =>
      by_cases hc : prop = "color"
      · subst hc
        obtain ⟨tr, htr, hlen⟩ := rp_loop_color_ok gd groups seeds env (e :: rest) seed k
        rw [htr]
        constructor
        · simp
        · intro tr2 h
          cases h
          exact hlen
      · by_cases ht : prop = "texture"
        · subst ht
          obtain ⟨tr, htr, hlen⟩ := rp_loop_texture_ok gd groups seeds env (e :: rest) seed k
          rw [htr]
          constructor
          · simp
          · intro tr2 h
            cases h
            exact hlen
        · rw [rp_loop_bad_prop prop hc ht gd groups seeds env e rest seed k]
          constructor
          · simp [hc, ht]
          · intro tr h
            cases h

/-- C8 (amended): the grouping/seeding logic itself never raises (the
`ValueError` of `find_group_seed` is always caught), but `randomize_property`
does raise a `ValueError` of its own for an unknown `prop`: the call errors
exactly when `prop` is neither "color" nor "texture" and there is at least
one visual element; otherwise it succeeds and delegates exactly one
sub-randomization call per visual element to the simulator-side shape
randomizers. -/
theorem randomize_property_error_characterisation (prop : String)
    (gd : Option Int) (seed0 : Option Int)
    (groups : Option (List (List String))) (env : RPEnv)
    (elements : List Element) :
    (RobotComponent.randomize_property prop gd seed0 groups env elements =
        Except.error () ↔
      (prop ≠ "color" ∧ prop ≠ "texture" ∧ elements ≠ [])) ∧
    (∀ tr, RobotComponent.randomize_property prop gd seed0 groups env
        elements = Except.ok tr → tr.length = elements.length) := by
  unfold RobotComponent.randomize_property
  exact rp_loop_error_iff prop gd groups _ env elements _ _

/-- C8 counterexample: with the unknown property name "shape" and a single
visual element, `randomize_property` raises a `ValueError` of its own
(rather than raising no error for every combination of arguments). -/
theorem randomize_property_unknown_prop_raises :
    RobotComponent.randomize_property "shape" none none none rpEnvId
      [{ name := "x", handle := 1 }] = Except.error () := by
  rfl

/-- A concrete copy backend: the paste returns handle 4 and the pasted
object's name is the digits-only name "7", which contains no hash sign. -/
def copyEnvDigits : CopyEnv :=
  { copyPasteObjects := fun _ _ => [4], getObjectName := fun _ => "7" }

/-- C4 counterexample: the pasted name "7" contains no hash sign, yet
`copy` computes the number int("7") + 1 = 8, not 0 as the claim states for
names without a hash sign. -/
theorem copy_no_hash_counterexample :
    Char.ofNat 35 ∉ "7".data ∧
    (RobotComponent.copy copyEnvDigits 3).2 = some 8 ∧
    some (8 : Int) ≠ some (0 : Int) := by
  refine ⟨by decide, by decide, by decide⟩

/-- C4 (amended): `copy` delegates the copy to
`simCopyPasteObjects([handle], 1)` and computes its number from the slice
of the pasted name after the LAST separator occurrence — the whole name
when the separator does not occur: int(slice) + 1 when the slice is
non-empty (a `ValueError` when it is non-empty but non-numeric), and 0 only
when the slice is empty. -/
theorem copy_delegation_and_number (env : CopyEnv) (handle : Int) :
    (RobotComponent.copy env handle).1 =
      [CopyCall.copyPasteObjects [handle] 1] ∧
    (RobotComponent.copy env handle).2 =
      copy_num (env.getObjectName ((env.copyPasteObjects [handle] 1).headD 0)) ∧
    (∀ name : String,
      (tail_after_hash name = [] → copy_num name = some 0) ∧
      (tail_after_hash name ≠ [] →
        copy_num name = (py_int (tail_after_hash name)).map (· + 1))) := by
  refine ⟨rfl, rfl, ?_⟩
  intro name
  constructor
  · intro h
    simp [copy_num, h]
  · intro h
    have hpos : 0 < (tail_after_hash name).length := List.length_pos.mpr h
    simp [copy_num, hpos]

/-- C9: every bulk joint setter raises `RuntimeError` exactly when the
length of the supplied list differs from the component's joint count (for
`set_joint_intervals`, when either supplied list does), and when it raises
the component's state is unchanged: the `_assert_len` check runs before any
simulator call. -/
theorem bulk_setters_assert_len
    (rc : RCState) (positions velocities forces : List ℚ) (afm : Bool)
    (cyclic : List Bool) (intervals : List (List ℚ)) :
    ((RobotComponent.set_joint_positions rc positions afm).2 = true ↔
      positions.length ≠ rc.joints.length) ∧
    ((RobotComponent.set_joint_positions rc positions afm).2 = true →
      (RobotComponent.set_joint_positions rc positions afm).1 = rc) ∧
    ((RobotComponent.set_joint_target_positions rc positions).2 = true ↔
      positions.length ≠ rc.joints.length) ∧
    ((RobotComponent.set_joint_target_positions rc positions).2 = true →
      (RobotComponent.set_joint_target_positions rc positions).1 = rc) ∧
    ((RobotComponent.set_joint_target_velocities rc velocities).2 = true ↔
      velocities.length ≠ rc.joints.length) ∧
    ((RobotComponent.set_joint_target_velocities rc velocities).2 = true →
      (RobotComponent.set_joint_target_velocities rc velocities).1 = rc) ∧
    ((RobotComponent.set_joint_forces rc forces).2 = true ↔
      forces.length ≠ rc.joints.length) ∧
    ((RobotComponent.set_joint_forces rc forces).2 = true →
      (RobotComponent.set_joint_forces rc forces).1 = rc) ∧
    ((RobotComponent.set_joint_intervals rc cyclic intervals).2 = true ↔
      (cyclic.length ≠ rc.joints.length ∨
        intervals.length ≠ rc.joints.length)) ∧
    ((RobotComponent.set_joint_intervals rc cyclic intervals).2 = true →
      (RobotComponent.set_joint_intervals rc cyclic intervals).1 = rc) := by
  refine ⟨?_, ?_, ?_, ?_, ?_, ?_, ?_, ?_, ?_, ?_⟩
  · by_cases h : rc.joints.length = positions.length
    · cases afm <;>
        simp [RobotComponent.set_joint_positions,
          RobotComponent.assert_len_fails, h]
    · simp [RobotComponent.set_joint_positions,
        RobotComponent.assert_len_fails, h]
      omega
  · by_cases h : rc.joints.length = positions.length
    · cases afm <;>
        simp [RobotComponent.set_joint_positions,
          RobotComponent.assert_len_fails, h]
    · simp [RobotComponent.set_joint_positions,
        RobotComponent.assert_len_fails, h]
  · by_cases h : rc.joints.length = positions.length
    · simp [RobotComponent.set_joint_target_positions,
        RobotComponent.assert_len_fails, h]
    · simp [RobotComponent.set_joint_target_positions,
        RobotComponent.assert_len_fails, h]
      omega
  · by_cases h : rc.joints.length = positions.length
    · simp [RobotComponent.set_joint_target_positions,
        RobotComponent.assert_len_fails, h]
    · simp [RobotComponent.set_joint_target_positions,
        RobotComponent.assert_len_fails, h]
  · by_cases h : rc.joints.length = velocities.length
    · simp [RobotComponent.set_joint_target_velocities,
        RobotComponent.assert_len_fails, h]
    · simp [RobotComponent.set_joint_target_velocities,
        RobotComponent.assert_len_fails, h]
      omega
  · by_cases h : rc.joints.length = velocities.length
    · simp [RobotComponent.set_joint_target_velocities,
        RobotComponent.assert_len_fails, h]
    · simp [RobotComponent.set_joint_target_velocities,
        RobotComponent.assert_len_fails, h]
  · by_cases h : rc.joints.length = forces.length
    · simp [RobotComponent.set_joint_forces,
        RobotComponent.assert_len_fails, h]
    · simp [RobotComponent.set_joint_forces,
        RobotComponent.assert_len_fails, h]
      omega
  · by_cases h : rc.joints.length = forces.length
    · simp [RobotComponent.set_joint_forces,
        RobotComponent.assert_len_fails, h]
    · simp [RobotComponent.set_joint_forces,
        RobotComponent.assert_len_fails, h]
  · by_cases hc : rc.joints.length = cyclic.length
    · by_cases hi : rc.joints.length = intervals.length
      · have h2 : cyclic.length = intervals.length := by omega
        simp [RobotComponent.set_joint_intervals,
          RobotComponent.assert_len_fails, hc, hi, h2]
      · have h2 : ¬ (cyclic.length = intervals.length) := by omega
        simp [RobotComponent.set_joint_intervals,
          RobotComponent.assert_len_fails, hc, hi, h2]
        omega
    · simp only [RobotComponent.set_joint_intervals,
        RobotComponent.assert_len_fails]
      rw [if_pos (by simpa using fun hx => hc hx)]
      simp
      omega
  · by_cases hc : rc.joints.length = cyclic.length
    · by_cases hi : rc.joints.length = intervals.length
      · have h2 : cyclic.length = intervals.length := by omega
        simp [RobotComponent.set_joint_intervals,
          RobotComponent.assert_len_fails, hc, hi, h2]
      · have h2 : ¬ (cyclic.length = intervals.length) := by omega
        simp [RobotComponent.set_joint_intervals,
          RobotComponent.assert_len_fails, hc, hi, h2]
    · simp only [RobotComponent.set_joint_intervals,
        RobotComponent.assert_len_fails]
      rw [if_pos (by simpa using fun hx => hc hx)]
      intro h2
      rfl

/-- C10: with allow_force_mode and a list of the right length,
`set_joint_positions` restores the component's model property and its
is-model flag to their values from before the call: dynamics are disabled
via `sim_modelproperty_not_dynamic` only temporarily. -/
theorem set_joint_positions_restores_model (rc : RCState)
    (positions : List ℚ) (h : positions.length = rc.joints.length) :
    (RobotComponent.set_joint_positions rc positions true).1.modelProperty =
      rc.modelProperty ∧
    (RobotComponent.set_joint_positions rc positions true).1.isModelFlag =
      rc.isModelFlag ∧
    (RobotComponent.set_joint_positions rc positions true).2 = false := by
  have hb : RobotComponent.assert_len_fails rc positions.length = false := by
    simp [RobotComponent.assert_len_fails, h]
  cases him : rc.isModelFlag <;>
    simp [RobotComponent.set_joint_positions, hb, RCState.set_model,
      RCState.is_model, him]

/-- A concrete joint state with all values zeroed. -/
def jointState0 : JointState :=
  { position := 0, targetPosition := 0, targetVelocity := 0,
    force := 0, cyclic := false, interval := [] }

/-- A concrete one-joint component state. -/
def rcState1 : RCState :=
  { joints := [jointState0], modelProperty := 5, isModelFlag := false,
    stepCount := 0 }

theorem set_joint_positions_restores_model_witness :
    ([(1 : ℚ)].length = rcState1.joints.length) ∧
    ((RobotComponent.set_joint_positions rcState1 [(1 : ℚ)] true).1.modelProperty =
        rcState1.modelProperty ∧
      (RobotComponent.set_joint_positions rcState1 [(1 : ℚ)] true).1.isModelFlag =
        rcState1.isModelFlag ∧
      (RobotComponent.set_joint_positions rcState1 [(1 : ℚ)] true).2 = false) :=
  ⟨rfl, set_joint_positions_restores_model rcState1 [(1 : ℚ)] rfl⟩
